import Mathlib

/-!
Verification of the AppFlowy `flowy-database` manager
(`frontend/rust-lib/flowy-database/src/manager.rs`).

The Rust code is shallowly embedded: every manager operation becomes a pure
Lean function that threads an explicit `ManagerState` (the editor cache) and
returns the list of durable side effects it performed (an `Event` trace)
together with an `Except FlowyError` result.  External capabilities consumed
by the manager (the user session, the storage pool, the revision-log
`reset_object` operations, the view JSON decoder, the migration runner, the
secondary block index) are collected into a `World` record of fallible
functions, so that every error path of the Rust code is representable.
-/

namespace FlowyDatabase

/-- Errors of the `flowy_error` crate, kept abstract as a code plus message. -/
structure FlowyError where
  code : Nat
  msg : String
  deriving DecidableEq

/-- Modelled from the spec: an opaque pooled storage resource handle
(`Arc<ConnectionPool>`); the manager never inspects it. -/
structure Pool where
  pool_id : Nat
  deriving DecidableEq

/-- A row inside a block of a `BuildGridContext` (from the `grid_model`
crate): carries its own id and the id of the block it belongs to. -/
structure RowRevision where
  id : String
  block_id : String
  deriving DecidableEq

/-- One entry of `BuildGridContext.blocks`: a block id together with the
ordered rows placed inside that block. -/
structure BuildGridBlock where
  block_id : String
  rows : List RowRevision
  deriving DecidableEq

/-- A schema field definition; its internals are opaque to the manager. -/
structure FieldRevision where
  id : String
  deriving DecidableEq

/-- Block metadata referenced by the document revision. -/
structure GridBlockMetaRevision where
  block_id : String
  row_count : Nat
  deriving DecidableEq

/-- The fully-materialized build context handed to the bootstrap routine. -/
structure BuildGridContext where
  field_revs : List FieldRevision
  block_metas : List GridBlockMetaRevision
  blocks : List BuildGridBlock
  grid_view_revision_data : String
  deriving DecidableEq

/-- The presentation layout selector (`DatabaseViewLayout` in `entities`). -/
inductive DatabaseViewLayout
  | Grid
  | Board
  | Calendar
  deriving DecidableEq

/-- The `layout.into()` conversion to the persisted layout code. -/
def DatabaseViewLayout.into : DatabaseViewLayout → Nat
  | .Grid => 0
  | .Board => 1
  | .Calendar => 2

/-- The document (grid) revision assembled from the build context. -/
structure DatabaseRevision where
  grid_id : String
  fields : List FieldRevision
  blocks : List GridBlockMetaRevision
  deriving DecidableEq

/-- `DatabaseRevision::from_build_context(grid_id, field_revs, block_metas)`. -/
def DatabaseRevision.from_build_context (grid_id : String) (field_revs : List FieldRevision)
    (block_metas : List GridBlockMetaRevision) : DatabaseRevision :=
  ⟨grid_id, field_revs, block_metas⟩

/-- A view revision: the owning document id, the view id and the layout. -/
structure DatabaseViewRevision where
  grid_id : String
  view_id : String
  layout : Nat
  deriving DecidableEq

/-- `DatabaseViewRevision::new(grid_id, view_id, layout)`. -/
def DatabaseViewRevision.new (grid_id view_id : String) (layout : Nat) : DatabaseViewRevision :=
  ⟨grid_id, view_id, layout⟩

/-- Modelled from the spec: the delta/encoding functions
(`make_grid_block_operations`, `make_database_operations`,
`make_grid_view_operations`, each followed by `json_bytes`) are pure black
boxes, so their output bytes are modelled freely by one constructor per
encoder, which keeps them injective and mutually distinct. -/
inductive Bytes
  | blockOps (block : BuildGridBlock)
  | gridOps (grid : DatabaseRevision)
  | viewOps (view : DatabaseViewRevision)
  deriving DecidableEq

/-- An immutable revision for one object id, carrying an opaque payload. -/
structure Revision where
  object_id : String
  bytes : Bytes
  deriving DecidableEq

/-- `Revision::initial_revision(object_id, bytes)`. -/
def Revision.initial_revision (object_id : String) (bytes : Bytes) : Revision :=
  ⟨object_id, bytes⟩

/-- A live editor handle (`Arc<DatabaseRevisionEditor>`).  The
`instance_tag` distinguishes separately constructed instances so that
identity of handles is observable in the model. -/
structure DatabaseRevisionEditor where
  database_id : String
  instance_tag : Nat
  deriving DecidableEq

/-- Durable side effects performed by the manager, in order. -/
inductive Event
  | indexInsert (block_id row_id : String) (ok : Bool)
  | blockCommit (block_id : String) (revisions : List Revision)
  | gridCommit (grid_id : String) (revisions : List Revision)
  | viewCommit (view_id : String) (revisions : List Revision)
  | migrationRun (database_id : String) (ok : Bool)
  | editorConstruct (database_id : String) (tag : Nat)
  | editorTeardown (database_id : String) (tag : Nat)
  deriving DecidableEq

/-- Whether a fallible call succeeded. -/
def isOkB {α : Type} : Except FlowyError α → Bool
  | .ok _ => true
  | .error _ => false

/-- Modelled from the spec: one entry of the reference-counted registry of
live handles (`RefCountHashMap` of `lib_infra`, which is repository code not
under `src/`): a reference count together with the registered handle. -/
structure RefEntry where
  ref_count : Nat
  editor : DatabaseRevisionEditor
  deriving DecidableEq

/-- The editor cache: an association list from document id to entry. -/
abbrev Cache := List (String × RefEntry)

/-- Lookup of the entry registered for an id. -/
def cacheFind : Cache → String → Option RefEntry
  | [], _ => none
  | p :: rest, id => if p.1 = id then some p.2 else cacheFind rest id

/-- Modelled from the spec: non-blocking lookup among currently live
handles. -/
def cacheGet (c : Cache) (id : String) : Option DatabaseRevisionEditor :=
  (cacheFind c id).map (fun entry => entry.editor)

/-- Modelled from the spec: `insert(id, handle)` registers a newly
constructed handle, becoming the canonical owner; per the spec a second
insert for the same id silently displaces the earlier handle without
running its teardown. -/
def cacheInsert (c : Cache) (id : String) (e : DatabaseRevisionEditor) : Cache :=
  (id, ⟨1, e⟩) :: c.filter (fun q => q.1 != id)

/-- Modelled from the spec: `remove(id)` decrements the reference count;
when it reaches zero the entry is evicted and the asynchronous teardown
callback runs on the evicted handle; on an absent id nothing happens. -/
def cacheRemove (c : Cache) (id : String) : Cache × List Event :=
  match cacheFind c id with
  | none => (c, [])
  | some entry =>
    if entry.ref_count ≤ 1 then
      (c.filter (fun q => q.1 != id),
       [Event.editorTeardown entry.editor.database_id entry.editor.instance_tag])
    else
      (c.map (fun q => if q.1 = id then (q.1, ⟨entry.ref_count - 1, entry.editor⟩) else q), [])

/-- The external capabilities consumed by the manager, every one fallible
exactly where the Rust signature is fallible. -/
structure World where
  user_id : Except FlowyError String
  db_pool : Except FlowyError Pool
  index_insert : String → String → Except FlowyError Unit
  reset_grid : String → List Revision → Except FlowyError Unit
  reset_block : String → List Revision → Except FlowyError Unit
  reset_view : String → List Revision → Except FlowyError Unit
  view_rev_manager : String → Except FlowyError Unit
  block_rev_manager : String → Except FlowyError Unit
  editor_new : String → Except FlowyError Unit
  view_from_json : String → Except FlowyError DatabaseViewRevision
  migration_v1 : String → Except FlowyError Unit

/-- The mutable state owned by the `DatabaseManager`: the editor cache plus
a counter supplying fresh instance tags for newly constructed editors. -/
structure ManagerState where
  grid_editors : Cache
  fresh_tag : Nat
  deriving DecidableEq

/-- The persistence policy pair passed to
`RevisionPersistenceConfiguration::new(6, false)`. -/
structure RevisionPersistenceConfiguration where
  retention_count : Nat
  force_flush : Bool
  deriving DecidableEq

/-- Modelled from the spec: the disk-backed revision persistence layer; its
constructor records its arguments and performs no other work. -/
structure RevisionPersistence where
  user_id : String
  object_id : String
  configuration : RevisionPersistenceConfiguration
  deriving DecidableEq

/-- Modelled from the spec: the snapshot persistence layer; its constructor
records its arguments and performs no other work. -/
structure SnapshotPersistence where
  object_id : String
  pool : Pool
  deriving DecidableEq

/-- The constructed revision manager for one object id. -/
structure RevisionManager where
  user_id : String
  object_id : String
  rev_persistence : RevisionPersistence
  snapshot_persistence : SnapshotPersistence
  deriving DecidableEq

/-- `DatabaseManager::make_database_rev_manager`: pure construction of the
revision manager for a document id, failing only when no user session is
active. -/
def make_database_rev_manager (w : World) (database_id : String) (pool : Pool) :
    Except FlowyError RevisionManager :=
  match w.user_id with
  | .error e => .error e
  | .ok user_id =>
    .ok { user_id := user_id
          object_id := database_id
          rev_persistence :=
            { user_id := user_id
              object_id := database_id
              configuration := { retention_count := 6, force_flush := false } }
          snapshot_persistence := { object_id := "grid:" ++ database_id, pool := pool } }

/-- `DatabaseManager::create_grid`: obtain the pool, build the revision
manager, then `reset_object` with the given revisions.  The editor cache is
never touched. -/
def create_grid (w : World) (s : ManagerState) (grid_id : String) (revisions : List Revision) :
    ManagerState × List Event × Except FlowyError Unit :=
  match w.db_pool with
  | .error e => (s, [], .error e)
  | .ok pool =>
    match make_database_rev_manager w grid_id pool with
    | .error e => (s, [], .error e)
    | .ok _ =>
      match w.reset_grid grid_id revisions with
      | .error e => (s, [], .error e)
      | .ok _ => (s, [Event.gridCommit grid_id revisions], .ok ())

/-- `DatabaseManager::create_grid_view`: build the view revision manager,
then `reset_object`. -/
def create_grid_view (w : World) (s : ManagerState) (view_id : String) (revisions : List Revision) :
    ManagerState × List Event × Except FlowyError Unit :=
  match w.view_rev_manager view_id with
  | .error e => (s, [], .error e)
  | .ok _ =>
    match w.reset_view view_id revisions with
    | .error e => (s, [], .error e)
    | .ok _ => (s, [Event.viewCommit view_id revisions], .ok ())

/-- `DatabaseManager::create_grid_block`: build the block revision manager,
then `reset_object`. -/
def create_grid_block (w : World) (s : ManagerState) (block_id : String) (revisions : List Revision) :
    ManagerState × List Event × Except FlowyError Unit :=
  match w.block_rev_manager block_id with
  | .error e => (s, [], .error e)
  | .ok _ =>
    match w.reset_block block_id revisions with
    | .error e => (s, [], .error e)
    | .ok _ => (s, [Event.blockCommit block_id revisions], .ok ())

/-- `DatabaseManager::make_database_rev_editor`: build the revision manager
and then the editor (`DatabaseRevisionEditor::new`, fallible); a fresh
instance tag identifies the constructed handle. -/
def make_database_rev_editor (w : World) (s : ManagerState) (database_id : String) (pool : Pool) :
    ManagerState × List Event × Except FlowyError DatabaseRevisionEditor :=
  match make_database_rev_manager w database_id pool with
  | .error e => (s, [], .error e)
  | .ok _ =>
    match w.editor_new database_id with
    | .error e => (s, [], .error e)
    | .ok _ =>
      ({ s with fresh_tag := s.fresh_tag + 1 },
       [Event.editorConstruct database_id s.fresh_tag],
       .ok ⟨database_id, s.fresh_tag⟩)

/-- `DatabaseManager::get_or_create_database_editor`: a read-lock lookup,
and on a miss a write-lock section that constructs and inserts without
re-checking the cache (faithful to the source: no double-checked lookup). -/
def get_or_create_database_editor (w : World) (s : ManagerState) (database_id : String) :
    ManagerState × List Event × Except FlowyError DatabaseRevisionEditor :=
  match cacheGet s.grid_editors database_id with
  | some editor => (s, [], .ok editor)
  | none =>
    match w.db_pool with
    | .error e => (s, [], .error e)
    | .ok pool =>
      match make_database_rev_editor w s database_id pool with
      | (s1, evs, .error e) => (s1, evs, .error e)
      | (s1, evs, .ok editor) =>
        ({ s1 with grid_editors := cacheInsert s1.grid_editors database_id editor },
         evs, .ok editor)

/-- `DatabaseManager::open_database`: run the v1 migration discarding its
result, then delegate to get-or-create. -/
def open_database (w : World) (s : ManagerState) (database_id : String) :
    ManagerState × List Event × Except FlowyError DatabaseRevisionEditor :=
  match get_or_create_database_editor w s database_id with
  | (s1, evs, r) =>
    (s1, Event.migrationRun database_id (isOkB (w.migration_v1 database_id)) :: evs, r)

/-- `DatabaseManager::close_database`: remove one reference from the cache
and return success unconditionally. -/
def close_database (s : ManagerState) (database_id : String) :
    ManagerState × List Event × Except FlowyError Unit :=
  match cacheRemove s.grid_editors database_id with
  | (c, evs) => ({ s with grid_editors := c }, evs, .ok ())

/-- `DatabaseManager::get_database_editor`: fast path returning the live
handle when one exists, otherwise fall through to the full open path. -/
def get_database_editor (w : World) (s : ManagerState) (database_id : String) :
    ManagerState × List Event × Except FlowyError DatabaseRevisionEditor :=
  match cacheGet s.grid_editors database_id with
  | some editor => (s, [], .ok editor)
  | none => open_database w s database_id

/-- The index-insert attempts performed for the rows of one block; each
attempt records the id pair of the call `block_index_cache.insert(row.block_id, row.id)`
and whether the write succeeded; the result itself is discarded. -/
def index_row_events (w : World) : List RowRevision → List Event
  | [] => []
  | row :: rest =>
    Event.indexInsert row.block_id row.id (isOkB (w.index_insert row.block_id row.id)) ::
      index_row_events w rest

/-- The per-block body of the bootstrap loop: index the rows of the block
(best effort), then commit the initial block revision. -/
def bootstrap_blocks (w : World) (s : ManagerState) :
    List BuildGridBlock → ManagerState × List Event × Except FlowyError Unit
  | [] => (s, [], .ok ())
  | block :: rest =>
    match create_grid_block w s block.block_id
        [Revision.initial_revision block.block_id (Bytes.blockOps block)] with
    | (s1, evs1, .error e) => (s1, index_row_events w block.rows ++ evs1, .error e)
    | (s1, evs1, .ok _) =>
      match bootstrap_blocks w s1 rest with
      | (s2, evs2, r2) => (s2, index_row_events w block.rows ++ evs1 ++ evs2, r2)

/-- Resolution of the view definition: an empty serialized payload means
synthesize the default view, otherwise deserialize (fallibly). -/
def resolve_view (w : World) (grid_id view_id : String) (layout : DatabaseViewLayout)
    (data : String) : Except FlowyError DatabaseViewRevision :=
  if data.isEmpty then
    .ok (DatabaseViewRevision.new grid_id view_id layout.into)
  else
    w.view_from_json data

/-- The document payload bytes assembled by the bootstrap routine for a
given grid id (which the source sets to the view id). -/
def grid_bytes (grid_id : String) (ctx : BuildGridContext) : Bytes :=
  Bytes.gridOps (DatabaseRevision.from_build_context grid_id ctx.field_revs ctx.block_metas)

/-- `make_database_view_data`: the bootstrap routine.  Per block: index its
rows then commit its initial revision; then commit the document revision
keyed by the view id; then resolve the view definition and commit the view
revision; on success return the document payload bytes. -/
def make_database_view_data (w : World) (s : ManagerState) (_user_id view_id : String)
    (layout : DatabaseViewLayout) (build_context : BuildGridContext) :
    ManagerState × List Event × Except FlowyError Bytes :=
  match bootstrap_blocks w s build_context.blocks with
  | (s1, evs1, .error e) => (s1, evs1, .error e)
  | (s1, evs1, .ok _) =>
    match create_grid w s1 view_id
        [Revision.initial_revision view_id (grid_bytes view_id build_context)] with
    | (s2, evs2, .error e) => (s2, evs1 ++ evs2, .error e)
    | (s2, evs2, .ok _) =>
      match resolve_view w view_id view_id layout build_context.grid_view_revision_data with
      | .error e => (s2, evs1 ++ evs2, .error e)
      | .ok grid_view =>
        match create_grid_view w s2 view_id
            [Revision.initial_revision view_id (Bytes.viewOps grid_view)] with
        | (s3, evs3, .error e) => (s3, evs1 ++ evs2 ++ evs3, .error e)
        | (s3, evs3, .ok _) =>
          (s3, evs1 ++ evs2 ++ evs3, .ok (grid_bytes view_id build_context))

/-! Interleaving semantics for concurrent calls of `open_database`.

A task runs `open_database` in three atomic sections, exactly the atomicity
the source provides: the migration call (no lock held), the read-lock cache
lookup of `get_or_create_database_editor`, and, on a miss, the write-lock
section that constructs the editor and inserts it.  Between the sections the
scheduler may switch tasks.  The write-lock section is atomic because the
source holds the write guard across construction and insert, but — faithful
to the source — it does not re-check the cache after the read-lock miss. -/

/-- Decidable equality of `Except` results. -/
instance {ε α : Type} [DecidableEq ε] [DecidableEq α] : DecidableEq (Except ε α)
  | .ok a, .ok b =>
    if h : a = b then .isTrue (by rw [h]) else .isFalse (by simp [h])
  | .ok _, .error _ => .isFalse (by simp)
  | .error _, .ok _ => .isFalse (by simp)
  | .error a, .error b =>
    if h : a = b then .isTrue (by rw [h]) else .isFalse (by simp [h])

/-- The control point a task of the interleaving semantics has reached. -/
inductive TaskPhase
  | start
  | postMigration
  | missed
  | done (r : Except FlowyError DatabaseRevisionEditor)
  deriving DecidableEq

/-- The shared state of the interleaving semantics. -/
structure ConcState where
  mstate : ManagerState
  trace : List Event
  deriving DecidableEq

/-- One atomic section of a task running `open_database database_id`. -/
def taskStep (w : World) (database_id : String) (g : ConcState) (p : TaskPhase) :
    ConcState × TaskPhase :=
  match p with
  | .start =>
    ({ g with trace := g.trace ++
        [Event.migrationRun database_id (isOkB (w.migration_v1 database_id))] },
     .postMigration)
  | .postMigration =>
    match cacheGet g.mstate.grid_editors database_id with
    | some editor => (g, .done (.ok editor))
    | none => (g, .missed)
  | .missed =>
    match w.db_pool with
    | .error e => (g, .done (.error e))
    | .ok pool =>
      match make_database_rev_editor w g.mstate database_id pool with
      | (s1, evs, .error e) => ({ mstate := s1, trace := g.trace ++ evs }, .done (.error e))
      | (s1, evs, .ok editor) =>
        ({ mstate := { s1 with grid_editors := cacheInsert s1.grid_editors database_id editor },
           trace := g.trace ++ evs },
         .done (.ok editor))
  | .done r => (g, .done r)

/-- The phases of two tasks that each run `open_database` on the same id. -/
structure TwoTasks where
  t0 : TaskPhase
  t1 : TaskPhase
  deriving DecidableEq

/-- Run a schedule over two tasks; `false` steps task 0, `true` task 1. -/
def runSched (w : World) (database_id : String) :
    List Bool → ConcState × TwoTasks → ConcState × TwoTasks
  | [], gt => gt
  | b :: rest, (g, ts) =>
    if b then
      match taskStep w database_id g ts.t1 with
      | (g1, p1) => runSched w database_id rest (g1, ⟨ts.t0, p1⟩)
    else
      match taskStep w database_id g ts.t0 with
      | (g1, p1) => runSched w database_id rest (g1, ⟨p1, ts.t1⟩)

/-! Trace observers. -/

/-- The block revisions committed in a trace, in order. -/
def block_commits : List Event → List (String × List Revision)
  | [] => []
  | Event.blockCommit id revs :: rest => (id, revs) :: block_commits rest
  | _ :: rest => block_commits rest

/-- The document revisions committed in a trace, in order. -/
def grid_commits : List Event → List (String × List Revision)
  | [] => []
  | Event.gridCommit id revs :: rest => (id, revs) :: grid_commits rest
  | _ :: rest => grid_commits rest

/-- The view revisions committed in a trace, in order. -/
def view_commits : List Event → List (String × List Revision)
  | [] => []
  | Event.viewCommit id revs :: rest => (id, revs) :: view_commits rest
  | _ :: rest => view_commits rest

/-- The successful secondary-index entries recorded in a trace, in order,
as pairs of block id and row id. -/
def index_entries : List Event → List (String × String)
  | [] => []
  | Event.indexInsert b r true :: rest => (b, r) :: index_entries rest
  | _ :: rest => index_entries rest

/-- The number of editor constructions recorded in a trace. -/
def editor_constructions : List Event → Nat
  | [] => 0
  | Event.editorConstruct _ _ :: rest => editor_constructions rest + 1
  | _ :: rest => editor_constructions rest

/-- Rank of an event in the phase order the claim C2 asserts: all index
entries, then all block commits, then the document commit, then the view
commit. -/
def phaseRank : Event → Nat
  | Event.indexInsert _ _ _ => 0
  | Event.blockCommit _ _ => 1
  | Event.gridCommit _ _ => 2
  | Event.viewCommit _ _ => 3
  | _ => 4

/-- Whether a trace is ordered by phase rank. -/
def phaseOrdered : List Event → Bool
  | [] => true
  | [_] => true
  | a :: b :: rest => decide (phaseRank a ≤ phaseRank b) && phaseOrdered (b :: rest)

/-- The expected trace produced for one block under the bootstrap loop. -/
def block_step_events (w : World) (block : BuildGridBlock) : List Event :=
  index_row_events w block.rows ++
    [Event.blockCommit block.block_id
      [Revision.initial_revision block.block_id (Bytes.blockOps block)]]

/-- The expected trace of the whole bootstrap block loop. -/
def blocks_trace (w : World) (bs : List BuildGridBlock) : List Event :=
  (bs.map (block_step_events w)).flatten

/-- All externals the create operations depend on succeed. -/
structure CreatesOk (w : World) : Prop where
  huser : ∃ u, w.user_id = .ok u
  hpool : ∃ p, w.db_pool = .ok p
  hreset_grid : ∀ id revs, w.reset_grid id revs = .ok ()
  hreset_block : ∀ id revs, w.reset_block id revs = .ok ()
  hreset_view : ∀ id revs, w.reset_view id revs = .ok ()
  hview_mgr : ∀ id, w.view_rev_manager id = .ok ()
  hblock_mgr : ∀ id, w.block_rev_manager id = .ok ()

/-! Concrete worlds and inputs used by witnesses and counterexamples. -/

/-- A world in which every external capability succeeds. -/
def okWorld : World where
  user_id := .ok "user-1"
  db_pool := .ok ⟨0⟩
  index_insert := fun _ _ => .ok ()
  reset_grid := fun _ _ => .ok ()
  reset_block := fun _ _ => .ok ()
  reset_view := fun _ _ => .ok ()
  view_rev_manager := fun _ => .ok ()
  block_rev_manager := fun _ => .ok ()
  editor_new := fun _ => .ok ()
  view_from_json := fun _ => .ok (DatabaseViewRevision.new "doc" "view" 0)
  migration_v1 := fun _ => .ok ()

/-- The manager state with an empty editor cache. -/
def emptyState : ManagerState := ⟨[], 0⟩

/-- A build context with two blocks of one row each and one field. -/
def ctxTwoBlocks : BuildGridContext where
  field_revs := [⟨"f1"⟩]
  block_metas := [⟨"b1", 1⟩, ⟨"b2", 1⟩]
  blocks := [⟨"b1", [⟨"r1", "b1"⟩]⟩, ⟨"b2", [⟨"r2", "b2"⟩]⟩]
  grid_view_revision_data := ""

/-- The schedule exhibiting the first-open race: both tasks run migration,
both observe the read-lock miss, then each runs the write-lock section. -/
def raceSchedule : List Bool := [false, true, false, true, false, true]

/-- The final state of the race run: two tasks concurrently opening the
previously-unopened id `g` under `okWorld`. -/
def raceRun : ConcState × TwoTasks :=
  runSched okWorld "g" raceSchedule (⟨emptyState, []⟩, ⟨.start, .start⟩)

/-- A manager state whose cache holds one live handle for id `g`. -/
def cachedState : ManagerState := ⟨[("g", ⟨1, ⟨"g", 0⟩⟩)], 1⟩

/-- A manager state whose cache holds a doubly-referenced handle for `g`. -/
def doubleRefState : ManagerState := ⟨[("g", ⟨2, ⟨"g", 0⟩⟩)], 1⟩

/-- A world whose storage pool is unavailable. -/
def poolFailWorld : World := { okWorld with db_pool := .error ⟨10, "no pool"⟩ }

/-- A world whose document revision-log reset fails. -/
def resetGridFailWorld : World :=
  { okWorld with reset_grid := fun _ _ => .error ⟨11, "storage"⟩ }

/-- A world whose view JSON decoder fails. -/
def parseFailWorld : World :=
  { okWorld with view_from_json := fun _ => .error ⟨12, "malformed"⟩ }

/-- A world whose secondary-index writes all fail. -/
def idxFailWorld : World :=
  { okWorld with index_insert := fun _ _ => .error ⟨13, "index"⟩ }

/-- The two-block build context with a malformed non-empty view payload. -/
def ctxBadView : BuildGridContext :=
  { ctxTwoBlocks with grid_view_revision_data := "oops" }

/-! Helper lemmas about trace observers. -/

theorem block_commits_append (a b : List Event) :
    block_commits (a ++ b) = block_commits a ++ block_commits b := by
  induction a with
  | nil => rfl
  | cons e rest ih => cases e <;> simp [block_commits, ih]

theorem grid_commits_append (a b : List Event) :
    grid_commits (a ++ b) = grid_commits a ++ grid_commits b := by
  induction a with
  | nil => rfl
  | cons e rest ih => cases e <;> simp [grid_commits, ih]

theorem view_commits_append (a b : List Event) :
    view_commits (a ++ b) = view_commits a ++ view_commits b := by
  induction a with
  | nil => rfl
  | cons e rest ih => cases e <;> simp [view_commits, ih]

theorem index_entries_append (a b : List Event) :
    index_entries (a ++ b) = index_entries a ++ index_entries b := by
  induction a with
  | nil => rfl
  | cons e rest ih =>
    cases e with
    | indexInsert x y ok => cases ok <;> simp [index_entries, ih]
    | blockCommit x revs => simp [index_entries, ih]
    | gridCommit x revs => simp [index_entries, ih]
    | viewCommit x revs => simp [index_entries, ih]
    | migrationRun x ok => simp [index_entries, ih]
    | editorConstruct x t => simp [index_entries, ih]
    | editorTeardown x t => simp [index_entries, ih]

theorem block_commits_index_row_events (w : World) (rows : List RowRevision) :
    block_commits (index_row_events w rows) = [] := by
  induction rows with
  | nil => rfl
  | cons r rest ih => simp [index_row_events, block_commits, ih]

theorem grid_commits_index_row_events (w : World) (rows : List RowRevision) :
    grid_commits (index_row_events w rows) = [] := by
  induction rows with
  | nil => rfl
  | cons r rest ih => simp [index_row_events, grid_commits, ih]

theorem view_commits_index_row_events (w : World) (rows : List RowRevision) :
    view_commits (index_row_events w rows) = [] := by
  induction rows with
  | nil => rfl
  | cons r rest ih => simp [index_row_events, view_commits, ih]

theorem index_entries_index_row_events (w : World) (rows : List RowRevision)
    (h : ∀ b r, w.index_insert b r = .ok ()) :
    index_entries (index_row_events w rows) =
      rows.map (fun row => (row.block_id, row.id)) := by
  induction rows with
  | nil => rfl
  | cons r rest ih => simp [index_row_events, index_entries, isOkB, h, ih]

theorem block_commits_blocks_trace (w : World) (bs : List BuildGridBlock) :
    block_commits (blocks_trace w bs) =
      bs.map (fun b => (b.block_id, [Revision.initial_revision b.block_id (Bytes.blockOps b)])) := by
  induction bs with
  | nil => rfl
  | cons b rest ih =>
    simp only [blocks_trace, List.map_cons, List.flatten_cons] at ih ⊢
    simp [block_step_events, block_commits_append, block_commits_index_row_events,
      block_commits, ih]

theorem grid_commits_blocks_trace (w : World) (bs : List BuildGridBlock) :
    grid_commits (blocks_trace w bs) = [] := by
  induction bs with
  | nil => rfl
  | cons b rest ih =>
    simp only [blocks_trace, List.map_cons, List.flatten_cons] at ih ⊢
    simp [block_step_events, grid_commits_append, grid_commits_index_row_events,
      grid_commits, ih]

theorem view_commits_blocks_trace (w : World) (bs : List BuildGridBlock) :
    view_commits (blocks_trace w bs) = [] := by
  induction bs with
  | nil => rfl
  | cons b rest ih =>
    simp only [blocks_trace, List.map_cons, List.flatten_cons] at ih ⊢
    simp [block_step_events, view_commits_append, view_commits_index_row_events,
      view_commits, ih]

theorem index_entries_blocks_trace (w : World) (bs : List BuildGridBlock)
    (h : ∀ b r, w.index_insert b r = .ok ()) :
    index_entries (blocks_trace w bs) =
      (bs.map (fun b => b.rows.map (fun row => (row.block_id, row.id)))).flatten := by
  induction bs with
  | nil => rfl
  | cons b rest ih =>
    simp only [blocks_trace, List.map_cons, List.flatten_cons] at ih ⊢
    simp [block_step_events, index_entries_append, index_entries_index_row_events w _ h,
      index_entries, ih]

/-! Helper lemmas about the create operations. -/

theorem create_grid_ok (w : World) (s : ManagerState) (id : String) (revs : List Revision)
    (u : String) (p : Pool) (hu : w.user_id = .ok u) (hp : w.db_pool = .ok p)
    (hr : w.reset_grid id revs = .ok ()) :
    create_grid w s id revs = (s, [Event.gridCommit id revs], .ok ()) := by
  simp [create_grid, make_database_rev_manager, hu, hp, hr]

theorem create_grid_pool_error (w : World) (s : ManagerState) (id : String)
    (revs : List Revision) (e : FlowyError) (hp : w.db_pool = .error e) :
    create_grid w s id revs = (s, [], .error e) := by
  simp [create_grid, hp]

theorem create_grid_reset_error (w : World) (s : ManagerState) (id : String)
    (revs : List Revision) (e : FlowyError) (u : String) (p : Pool)
    (hu : w.user_id = .ok u) (hp : w.db_pool = .ok p)
    (hr : w.reset_grid id revs = .error e) :
    create_grid w s id revs = (s, [], .error e) := by
  simp [create_grid, make_database_rev_manager, hu, hp, hr]

theorem create_grid_view_ok (w : World) (s : ManagerState) (id : String) (revs : List Revision)
    (hm : w.view_rev_manager id = .ok ()) (hr : w.reset_view id revs = .ok ()) :
    create_grid_view w s id revs = (s, [Event.viewCommit id revs], .ok ()) := by
  simp [create_grid_view, hm, hr]

theorem create_grid_block_ok (w : World) (s : ManagerState) (id : String) (revs : List Revision)
    (hm : w.block_rev_manager id = .ok ()) (hr : w.reset_block id revs = .ok ()) :
    create_grid_block w s id revs = (s, [Event.blockCommit id revs], .ok ()) := by
  simp [create_grid_block, hm, hr]

theorem bootstrap_blocks_ok (w : World)
    (hm : ∀ id, w.block_rev_manager id = .ok ())
    (hr : ∀ id revs, w.reset_block id revs = .ok ()) :
    ∀ (bs : List BuildGridBlock) (s : ManagerState),
      bootstrap_blocks w s bs = (s, blocks_trace w bs, .ok ()) := by
  intro bs
  induction bs with
  | nil => intro s; rfl
  | cons b rest ih =>
    intro s
    have hcb := create_grid_block_ok w s b.block_id
      [Revision.initial_revision b.block_id (Bytes.blockOps b)] (hm _) (hr _ _)
    simp only [blocks_trace, List.map_cons, List.flatten_cons]
    simp only [blocks_trace] at ih
    simp [bootstrap_blocks, hcb, ih, block_step_events]

/-! Characterizations of the bootstrap routine. -/

theorem make_database_view_data_ok (w : World) (s : ManagerState) (uid vid : String)
    (layout : DatabaseViewLayout) (ctx : BuildGridContext) (gv : DatabaseViewRevision)
    (hc : CreatesOk w)
    (hview : resolve_view w vid vid layout ctx.grid_view_revision_data = .ok gv) :
    make_database_view_data w s uid vid layout ctx =
      (s,
       blocks_trace w ctx.blocks ++
         [Event.gridCommit vid [Revision.initial_revision vid (grid_bytes vid ctx)]] ++
         [Event.viewCommit vid [Revision.initial_revision vid (Bytes.viewOps gv)]],
       .ok (grid_bytes vid ctx)) := by
  obtain ⟨⟨u, hu⟩, ⟨p, hp⟩, hrg, hrb, hrv, hvm, hbm⟩ := hc
  have h1 := bootstrap_blocks_ok w hbm hrb ctx.blocks s
  have h2 := create_grid_ok w s vid
    [Revision.initial_revision vid (grid_bytes vid ctx)] u p hu hp (hrg _ _)
  have h3 := create_grid_view_ok w s vid
    [Revision.initial_revision vid (Bytes.viewOps gv)] (hvm _) (hrv _ _)
  simp [make_database_view_data, h1, h2, h3, hview]

theorem make_database_view_data_grid_fail (w : World) (s : ManagerState) (uid vid : String)
    (layout : DatabaseViewLayout) (ctx : BuildGridContext) (e : FlowyError)
    (hbm : ∀ id, w.block_rev_manager id = .ok ())
    (hrb : ∀ id revs, w.reset_block id revs = .ok ())
    (hu : ∃ u, w.user_id = .ok u) (hp : ∃ p, w.db_pool = .ok p)
    (hfail : w.reset_grid vid [Revision.initial_revision vid (grid_bytes vid ctx)] = .error e) :
    make_database_view_data w s uid vid layout ctx =
      (s, blocks_trace w ctx.blocks, .error e) := by
  obtain ⟨u, hu⟩ := hu
  obtain ⟨p, hp⟩ := hp
  have h1 := bootstrap_blocks_ok w hbm hrb ctx.blocks s
  have h2 := create_grid_reset_error w s vid
    [Revision.initial_revision vid (grid_bytes vid ctx)] e u p hu hp hfail
  simp [make_database_view_data, h1, h2]

theorem make_database_view_data_view_fail (w : World) (s : ManagerState) (uid vid : String)
    (layout : DatabaseViewLayout) (ctx : BuildGridContext) (e : FlowyError)
    (hc : CreatesOk w)
    (hview : resolve_view w vid vid layout ctx.grid_view_revision_data = .error e) :
    make_database_view_data w s uid vid layout ctx =
      (s,
       blocks_trace w ctx.blocks ++
         [Event.gridCommit vid [Revision.initial_revision vid (grid_bytes vid ctx)]],
       .error e) := by
  obtain ⟨⟨u, hu⟩, ⟨p, hp⟩, hrg, hrb, hrv, hvm, hbm⟩ := hc
  have h1 := bootstrap_blocks_ok w hbm hrb ctx.blocks s
  have h2 := create_grid_ok w s vid
    [Revision.initial_revision vid (grid_bytes vid ctx)] u p hu hp (hrg _ _)
  simp [make_database_view_data, h1, h2, hview]

/-! Helper lemmas about the cache. -/

theorem cacheFind_insert (c : Cache) (id : String) (e : DatabaseRevisionEditor) :
    cacheFind (cacheInsert c id e) id = some ⟨1, e⟩ := by
  simp [cacheInsert, cacheFind]

theorem cacheFind_filter_ne (c : Cache) (id : String) :
    cacheFind (c.filter (fun q => q.1 != id)) id = none := by
  induction c with
  | nil => rfl
  | cons p rest ih =>
    by_cases hpq : p.1 = id
    · have hb : (p.1 != id) = false := by simp [hpq]
      simp [List.filter, cacheFind, hb, ih]
    · have hb : (p.1 != id) = true := by simp [hpq]
      simp [List.filter, cacheFind, hb, hpq, ih]

theorem cacheFind_map_update (c : Cache) (id : String) (v : RefEntry) :
    cacheFind (c.map (fun q => if q.1 = id then (q.1, v) else q)) id =
      (cacheFind c id).map (fun _ => v) := by
  induction c with
  | nil => rfl
  | cons p rest ih =>
    by_cases hpq : p.1 = id
    · simp [cacheFind, hpq]
    · simp [cacheFind, hpq, ih]

theorem okWorldCreates : CreatesOk okWorld :=
  ⟨⟨"user-1", rfl⟩, ⟨⟨0⟩, rfl⟩, fun _ _ => rfl, fun _ _ => rfl, fun _ _ => rfl,
   fun _ => rfl, fun _ => rfl⟩

theorem parseFailWorldCreates : CreatesOk parseFailWorld :=
  ⟨⟨"user-1", rfl⟩, ⟨⟨0⟩, rfl⟩, fun _ _ => rfl, fun _ _ => rfl, fun _ _ => rfl,
   fun _ => rfl, fun _ => rfl⟩

/-- Cache hit: get-or-create returns the live handle untouched. -/
theorem get_or_create_hit (w : World) (s : ManagerState) (id : String)
    (editor : DatabaseRevisionEditor) (h : cacheGet s.grid_editors id = some editor) :
    get_or_create_database_editor w s id = (s, [], .ok editor) := by
  simp [get_or_create_database_editor, h]

/-- Cache miss with unavailable pool: the pool error is returned. -/
theorem get_or_create_miss_pool_error (w : World) (s : ManagerState) (id : String)
    (e : FlowyError) (hcg : cacheGet s.grid_editors id = none)
    (hdp : w.db_pool = .error e) :
    get_or_create_database_editor w s id = (s, [], .error e) := by
  simp [get_or_create_database_editor, hcg, hdp]

/-- Cache miss with failing construction: the construction error returns. -/
theorem get_or_create_miss_mk_error (w : World) (s : ManagerState) (id : String)
    (pool : Pool) (s2 : ManagerState) (evs2 : List Event) (e : FlowyError)
    (hcg : cacheGet s.grid_editors id = none) (hdp : w.db_pool = .ok pool)
    (hmk : make_database_rev_editor w s id pool = (s2, evs2, .error e)) :
    get_or_create_database_editor w s id = (s2, evs2, .error e) := by
  simp [get_or_create_database_editor, hcg, hdp, hmk]

/-- Cache miss with successful construction: the handle is inserted. -/
theorem get_or_create_miss_ok (w : World) (s : ManagerState) (id : String)
    (pool : Pool) (s2 : ManagerState) (evs2 : List Event) (editor : DatabaseRevisionEditor)
    (hcg : cacheGet s.grid_editors id = none) (hdp : w.db_pool = .ok pool)
    (hmk : make_database_rev_editor w s id pool = (s2, evs2, .ok editor)) :
    get_or_create_database_editor w s id =
      ({ s2 with grid_editors := cacheInsert s2.grid_editors id editor }, evs2, .ok editor) := by
  simp [get_or_create_database_editor, hcg, hdp, hmk]

/-- A successful get-or-create leaves the returned handle registered in the
cache of the returned state. -/
theorem get_or_create_registers (w : World) (s : ManagerState) (id : String)
    (s1 : ManagerState) (evs : List Event) (e : DatabaseRevisionEditor)
    (h : get_or_create_database_editor w s id = (s1, evs, .ok e)) :
    cacheGet s1.grid_editors id = some e := by
  cases hcg : cacheGet s.grid_editors id with
  | some ed =>
    rw [get_or_create_hit w s id ed hcg] at h
    simp only [Prod.mk.injEq, Except.ok.injEq] at h
    obtain ⟨h1, _, h3⟩ := h
    rw [← h1, ← h3]
    exact hcg
  | none =>
    cases hdp : w.db_pool with
    | error er =>
      rw [get_or_create_miss_pool_error w s id er hcg hdp] at h
      simp at h
    | ok pool =>
      rcases hmk : make_database_rev_editor w s id pool with ⟨s2, evs2, r2⟩
      cases r2 with
      | error er =>
        rw [get_or_create_miss_mk_error w s id pool s2 evs2 er hcg hdp hmk] at h
        simp at h
      | ok ed =>
        rw [get_or_create_miss_ok w s id pool s2 evs2 ed hcg hdp hmk] at h
        simp only [Prod.mk.injEq, Except.ok.injEq] at h
        obtain ⟨h1, _, h3⟩ := h
        rw [← h1, ← h3]
        simp [cacheGet, cacheFind_insert]

/-- Get-or-create never consults the migration runner. -/
theorem get_or_create_ignores_migration (w : World) (m : String → Except FlowyError Unit)
    (s : ManagerState) (id : String) :
    get_or_create_database_editor { w with migration_v1 := m } s id =
      get_or_create_database_editor w s id := rfl

/-- The block-creation path never consults the secondary index. -/
theorem create_grid_block_ignores_index (w : World)
    (f : String → String → Except FlowyError Unit) (s : ManagerState) (id : String)
    (revs : List Revision) :
    create_grid_block { w with index_insert := f } s id revs =
      create_grid_block w s id revs := rfl

/-- The final state, the result, and the committed block revisions of the
bootstrap block loop do not depend on the secondary-index capability. -/
theorem bootstrap_blocks_index_independent (w : World)
    (f : String → String → Except FlowyError Unit) :
    ∀ (bs : List BuildGridBlock) (s : ManagerState),
      (bootstrap_blocks { w with index_insert := f } s bs).1 = (bootstrap_blocks w s bs).1 ∧
      (bootstrap_blocks { w with index_insert := f } s bs).2.2 =
        (bootstrap_blocks w s bs).2.2 ∧
      block_commits (bootstrap_blocks { w with index_insert := f } s bs).2.1 =
        block_commits (bootstrap_blocks w s bs).2.1 := by
  intro bs
  induction bs with
  | nil => intro s; exact ⟨rfl, rfl, rfl⟩
  | cons b rest ih =>
    intro s
    rcases hcb : create_grid_block w s b.block_id
        [Revision.initial_revision b.block_id (Bytes.blockOps b)] with ⟨s1, evs1, r1⟩
    have hcbf : create_grid_block { w with index_insert := f } s b.block_id
        [Revision.initial_revision b.block_id (Bytes.blockOps b)] = (s1, evs1, r1) := hcb
    cases r1 with
    | error e =>
      simp [bootstrap_blocks, hcb, hcbf, block_commits_append,
        block_commits_index_row_events]
    | ok u =>
      rcases hbw : bootstrap_blocks w s1 rest with ⟨s2, evs2, r2⟩
      rcases hbf : bootstrap_blocks { w with index_insert := f } s1 rest with ⟨s2f, evs2f, r2f⟩
      have hih := ih s1
      rw [hbw, hbf] at hih
      obtain ⟨hs, hr, hbc⟩ := hih
      simp only at hs hr hbc
      simp [bootstrap_blocks, hcb, hcbf, hbw, hbf, hs, hr, hbc,
        block_commits_append, block_commits_index_row_events]

/-! The claims. -/

/-- Claim C1: the specification requires that concurrent first-time opens of
the same unopened id construct exactly one handle, that every caller receive
that same handle, and that no earlier-inserted handle be displaced without
its teardown running.  The source checks the cache under the read lock and
then constructs and inserts under the write lock without re-checking, so in
the interleaving where both tasks observe a miss before either inserts, two
distinct handles are constructed, the two callers receive different handles,
and the first registered handle is displaced without teardown.  This theorem
exhibits that execution of the embedded interleaving semantics. -/
theorem C1_first_open_race_double_construction :
    raceRun.2.t0 = TaskPhase.done (.ok ⟨"g", 0⟩) ∧
    raceRun.2.t1 = TaskPhase.done (.ok ⟨"g", 1⟩) ∧
    (⟨"g", 0⟩ : DatabaseRevisionEditor) ≠ ⟨"g", 1⟩ ∧
    editor_constructions raceRun.1.trace = 2 ∧
    raceRun.1.mstate.grid_editors = [("g", ⟨1, ⟨"g", 1⟩⟩)] ∧
    Event.editorTeardown "g" 0 ∉ raceRun.1.trace := by
  decide

/-- Claim C2, counterexample to the phase ordering as stated: with two
blocks the bootstrap succeeds, yet its trace is not ordered as all index
entries, then all block commits, then the document commit, then the view
commit — the second block is indexed after the first block is committed. -/
theorem C2_strict_phase_order_refuted :
    (make_database_view_data okWorld emptyState "u" "v" DatabaseViewLayout.Grid
        ctxTwoBlocks).2.2 = .ok (grid_bytes "v" ctxTwoBlocks) ∧
    phaseOrdered
      (make_database_view_data okWorld emptyState "u" "v" DatabaseViewLayout.Grid
        ctxTwoBlocks).2.1 = false := by
  decide

/-- Claim C2 (amended): the bootstrap routine processes the blocks in order,
indexing the rows of each block immediately before committing that block
initial revision (interleaved per block rather than in two global phases),
then commits exactly one document revision and exactly one view revision,
and on success returns the encoded document payload bytes; the counts are
one index entry per row, one block revision per block, one document
revision, one view revision; a failing document commit returns that first
error while the earlier block commits remain, with no rollback. -/
theorem C2_bootstrap_trace_and_counts (s : ManagerState) (uid vid : String)
    (layout : DatabaseViewLayout) :
    (∀ (w : World) (ctx : BuildGridContext) (gv : DatabaseViewRevision),
       CreatesOk w →
       (∀ b r, w.index_insert b r = .ok ()) →
       resolve_view w vid vid layout ctx.grid_view_revision_data = .ok gv →
       make_database_view_data w s uid vid layout ctx =
         (s,
          blocks_trace w ctx.blocks ++
            [Event.gridCommit vid [Revision.initial_revision vid (grid_bytes vid ctx)]] ++
            [Event.viewCommit vid [Revision.initial_revision vid (Bytes.viewOps gv)]],
          .ok (grid_bytes vid ctx)) ∧
       index_entries (make_database_view_data w s uid vid layout ctx).2.1 =
         (ctx.blocks.map (fun b => b.rows.map (fun row => (row.block_id, row.id)))).flatten ∧
       block_commits (make_database_view_data w s uid vid layout ctx).2.1 =
         ctx.blocks.map
           (fun b => (b.block_id, [Revision.initial_revision b.block_id (Bytes.blockOps b)])) ∧
       grid_commits (make_database_view_data w s uid vid layout ctx).2.1 =
         [(vid, [Revision.initial_revision vid (grid_bytes vid ctx)])] ∧
       view_commits (make_database_view_data w s uid vid layout ctx).2.1 =
         [(vid, [Revision.initial_revision vid (Bytes.viewOps gv)])]) ∧
    (∀ (w : World) (ctx : BuildGridContext) (e : FlowyError),
       (∀ id, w.block_rev_manager id = .ok ()) →
       (∀ id revs, w.reset_block id revs = .ok ()) →
       (∃ u, w.user_id = .ok u) → (∃ p, w.db_pool = .ok p) →
       w.reset_grid vid [Revision.initial_revision vid (grid_bytes vid ctx)] = .error e →
       make_database_view_data w s uid vid layout ctx =
         (s, blocks_trace w ctx.blocks, .error e)) := by
  constructor
  · intro w ctx gv hc hidx hview
    have heq := make_database_view_data_ok w s uid vid layout ctx gv hc hview
    refine ⟨heq, ?_, ?_, ?_, ?_⟩ <;> rw [heq] <;>
      simp [index_entries_append, block_commits_append, grid_commits_append,
        view_commits_append, index_entries_blocks_trace w ctx.blocks hidx,
        block_commits_blocks_trace, grid_commits_blocks_trace, view_commits_blocks_trace,
        index_entries, block_commits, grid_commits, view_commits]
  · intro w ctx e hbm hrb hu hp hfail
    exact make_database_view_data_grid_fail w s uid vid layout ctx e hbm hrb hu hp hfail

/-- Witness for C2: the amended theorem applied to the two-block context
under the all-success world and under a failing document reset. -/
theorem C2_bootstrap_trace_and_counts_witness :
    make_database_view_data okWorld emptyState "u" "v" DatabaseViewLayout.Grid ctxTwoBlocks =
      (emptyState,
       blocks_trace okWorld ctxTwoBlocks.blocks ++
         [Event.gridCommit "v" [Revision.initial_revision "v" (grid_bytes "v" ctxTwoBlocks)]] ++
         [Event.viewCommit "v" [Revision.initial_revision "v"
            (Bytes.viewOps (DatabaseViewRevision.new "v" "v" 0))]],
       .ok (grid_bytes "v" ctxTwoBlocks)) ∧
    make_database_view_data resetGridFailWorld emptyState "u" "v" DatabaseViewLayout.Grid
        ctxTwoBlocks =
      (emptyState, blocks_trace resetGridFailWorld ctxTwoBlocks.blocks,
       .error ⟨11, "storage"⟩) :=
  ⟨((C2_bootstrap_trace_and_counts emptyState "u" "v" DatabaseViewLayout.Grid).1 okWorld
      ctxTwoBlocks (DatabaseViewRevision.new "v" "v" 0) okWorldCreates
      (fun _ _ => rfl) rfl).1,
   (C2_bootstrap_trace_and_counts emptyState "u" "v" DatabaseViewLayout.Grid).2
      resetGridFailWorld ctxTwoBlocks ⟨11, "storage"⟩ (fun _ => rfl) (fun _ _ => rfl)
      ⟨"user-1", rfl⟩ ⟨⟨0⟩, rfl⟩ rfl⟩

/-- Claim C3: while a handle for the id is live in the cache,
`get_database_editor` returns that very handle with no migration and no
construction and with the state unchanged; with no live handle it falls
through to the full open path; and a successful open leaves the returned
handle registered, so subsequent gets return it. -/
theorem C3_get_editor_fast_path (w : World) (id : String) :
    (∀ (s : ManagerState) (e : DatabaseRevisionEditor),
       cacheGet s.grid_editors id = some e →
       get_database_editor w s id = (s, [], .ok e)) ∧
    (∀ s : ManagerState,
       cacheGet s.grid_editors id = none →
       get_database_editor w s id = open_database w s id) ∧
    (∀ (s s1 : ManagerState) (evs : List Event) (e : DatabaseRevisionEditor),
       open_database w s id = (s1, evs, .ok e) →
       cacheGet s1.grid_editors id = some e) := by
  refine ⟨?_, ?_, ?_⟩
  · intro s e h
    simp [get_database_editor, h]
  · intro s h
    simp [get_database_editor, h]
  · intro s s1 evs e h
    rcases hg : get_or_create_database_editor w s id with ⟨s2, evs2, r2⟩
    have hopen : open_database w s id =
        (s2, Event.migrationRun id (isOkB (w.migration_v1 id)) :: evs2, r2) := by
      simp [open_database, hg]
    rw [hopen] at h
    simp only [Prod.mk.injEq] at h
    obtain ⟨h1, _, h3⟩ := h
    exact get_or_create_registers w s id s1 evs2 e (by rw [hg, h1, h3])

/-- Witness for C3 at a cached state, an empty state, and a concrete
successful open. -/
theorem C3_get_editor_fast_path_witness :
    get_database_editor okWorld cachedState "g" = (cachedState, [], .ok ⟨"g", 0⟩) ∧
    get_database_editor okWorld emptyState "g" = open_database okWorld emptyState "g" ∧
    cacheGet (⟨[("g", ⟨1, ⟨"g", 0⟩⟩)], 1⟩ : ManagerState).grid_editors "g" = some ⟨"g", 0⟩ :=
  ⟨(C3_get_editor_fast_path okWorld "g").1 cachedState ⟨"g", 0⟩ rfl,
   (C3_get_editor_fast_path okWorld "g").2.1 emptyState rfl,
   (C3_get_editor_fast_path okWorld "g").2.2 emptyState ⟨[("g", ⟨1, ⟨"g", 0⟩⟩)], 1⟩
     [Event.migrationRun "g" true, Event.editorConstruct "g" 0] ⟨"g", 0⟩ (by decide)⟩

/-- Claim C4: `open_database` records the migration run first and then
delegates to get-or-create; for every migration capability `m` — including
an always-failing one — the resulting state and result coincide with those
of get-or-create, so a migration error is never propagated. -/
theorem C4_open_never_propagates_migration_error (w : World) (s : ManagerState)
    (id : String) (m : String → Except FlowyError Unit) :
    open_database { w with migration_v1 := m } s id =
      ((get_or_create_database_editor w s id).1,
       Event.migrationRun id (isOkB (m id)) ::
         (get_or_create_database_editor w s id).2.1,
       (get_or_create_database_editor w s id).2.2) := by
  rcases hg : get_or_create_database_editor w s id with ⟨s1, evs1, r1⟩
  have hgf : get_or_create_database_editor { w with migration_v1 := m } s id =
      (s1, evs1, r1) := by
    rw [get_or_create_ignores_migration, hg]
  simp [open_database, hgf]

/-- Claim C5: `create_grid` never touches the editor cache, fails with the
session error of the unavailable pool, and propagates a revision-log reset
error unchanged. -/
theorem C5_create_grid_error_paths (s : ManagerState) (gid : String)
    (revs : List Revision) :
    (∀ w : World, (create_grid w s gid revs).1 = s) ∧
    (∀ (w : World) (e : FlowyError), w.db_pool = .error e →
       create_grid w s gid revs = (s, [], .error e)) ∧
    (∀ (w : World) (e : FlowyError) (u : String) (p : Pool),
       w.db_pool = .ok p → w.user_id = .ok u →
       w.reset_grid gid revs = .error e →
       create_grid w s gid revs = (s, [], .error e)) := by
  refine ⟨?_, ?_, ?_⟩
  · intro w
    unfold create_grid
    split
    · rfl
    · split
      · rfl
      · split <;> rfl
  · intro w e hp
    exact create_grid_pool_error w s gid revs e hp
  · intro w e u p hp hu hr
    exact create_grid_reset_error w s gid revs e u p hu hp hr

/-- Witness for C5 at the empty state, a pool-failing world and a
reset-failing world. -/
theorem C5_create_grid_error_paths_witness :
    (create_grid okWorld emptyState "g" []).1 = emptyState ∧
    create_grid poolFailWorld emptyState "g" [] = (emptyState, [], .error ⟨10, "no pool"⟩) ∧
    create_grid resetGridFailWorld emptyState "g" [] =
      (emptyState, [], .error ⟨11, "storage"⟩) :=
  ⟨(C5_create_grid_error_paths emptyState "g" []).1 okWorld,
   (C5_create_grid_error_paths emptyState "g" []).2.1 poolFailWorld ⟨10, "no pool"⟩ rfl,
   (C5_create_grid_error_paths emptyState "g" []).2.2 resetGridFailWorld ⟨11, "storage"⟩
     "user-1" ⟨0⟩ rfl rfl rfl⟩

/-- Claim C6: an empty serialized view payload makes bootstrap synthesize
and commit the default view bound to the document id (equal to the view id),
the view id and the requested layout; a non-empty payload that fails to
parse aborts bootstrap with the parse error before the view commit, while
the block commits and the document commit of the earlier steps remain. -/
theorem C6_view_payload_resolution (s : ManagerState) (uid vid : String)
    (layout : DatabaseViewLayout) :
    (∀ (w : World) (ctx : BuildGridContext), CreatesOk w →
       ctx.grid_view_revision_data = "" →
       make_database_view_data w s uid vid layout ctx =
         (s,
          blocks_trace w ctx.blocks ++
            [Event.gridCommit vid [Revision.initial_revision vid (grid_bytes vid ctx)]] ++
            [Event.viewCommit vid [Revision.initial_revision vid
               (Bytes.viewOps (DatabaseViewRevision.new vid vid layout.into))]],
          .ok (grid_bytes vid ctx))) ∧
    (∀ (w : World) (ctx : BuildGridContext) (e : FlowyError), CreatesOk w →
       ctx.grid_view_revision_data.isEmpty = false →
       w.view_from_json ctx.grid_view_revision_data = .error e →
       make_database_view_data w s uid vid layout ctx =
         (s,
          blocks_trace w ctx.blocks ++
            [Event.gridCommit vid [Revision.initial_revision vid (grid_bytes vid ctx)]],
          .error e) ∧
       view_commits (make_database_view_data w s uid vid layout ctx).2.1 = [] ∧
       block_commits (make_database_view_data w s uid vid layout ctx).2.1 =
         ctx.blocks.map
           (fun b => (b.block_id, [Revision.initial_revision b.block_id (Bytes.blockOps b)])) ∧
       grid_commits (make_database_view_data w s uid vid layout ctx).2.1 =
         [(vid, [Revision.initial_revision vid (grid_bytes vid ctx)])]) := by
  constructor
  · intro w ctx hc hdata
    apply make_database_view_data_ok w s uid vid layout ctx _ hc
    rw [hdata]
    rfl
  · intro w ctx e hc hne hjson
    have hview : resolve_view w vid vid layout ctx.grid_view_revision_data = .error e := by
      simp [resolve_view, hne, hjson]
    have heq := make_database_view_data_view_fail w s uid vid layout ctx e hc hview
    refine ⟨heq, ?_, ?_, ?_⟩ <;> rw [heq] <;>
      simp [view_commits_append, block_commits_append, grid_commits_append,
        view_commits_blocks_trace, block_commits_blocks_trace, grid_commits_blocks_trace,
        view_commits, block_commits, grid_commits]

/-- Witness for C6: the default-view synthesis under the all-success world,
and the parse failure under a failing decoder with a non-empty payload. -/
theorem C6_view_payload_resolution_witness :
    make_database_view_data okWorld emptyState "u" "v" DatabaseViewLayout.Grid ctxTwoBlocks =
      (emptyState,
       blocks_trace okWorld ctxTwoBlocks.blocks ++
         [Event.gridCommit "v" [Revision.initial_revision "v" (grid_bytes "v" ctxTwoBlocks)]] ++
         [Event.viewCommit "v" [Revision.initial_revision "v"
            (Bytes.viewOps (DatabaseViewRevision.new "v" "v" DatabaseViewLayout.Grid.into))]],
       .ok (grid_bytes "v" ctxTwoBlocks)) ∧
    make_database_view_data parseFailWorld emptyState "u" "v" DatabaseViewLayout.Grid
        ctxBadView =
      (emptyState,
       blocks_trace parseFailWorld ctxBadView.blocks ++
         [Event.gridCommit "v" [Revision.initial_revision "v" (grid_bytes "v" ctxBadView)]],
       .error ⟨12, "malformed"⟩) :=
  ⟨(C6_view_payload_resolution emptyState "u" "v" DatabaseViewLayout.Grid).1 okWorld
     ctxTwoBlocks okWorldCreates rfl,
   ((C6_view_payload_resolution emptyState "u" "v" DatabaseViewLayout.Grid).2 parseFailWorld
     ctxBadView ⟨12, "malformed"⟩ parseFailWorldCreates rfl rfl).1⟩

/-- Claim C7: `make_database_rev_manager` is pure construction: given a live
session it returns the revision manager whose persistence configuration is
the fixed pair of retention count 6 and no forced flush, and whose snapshot
object id is the document id under the fixed namespace, with no other
effect. -/
theorem C7_make_rev_manager_pure_construction (w : World) (id : String) (pool : Pool)
    (u : String) (h : w.user_id = .ok u) :
    make_database_rev_manager w id pool =
      .ok { user_id := u
            object_id := id
            rev_persistence :=
              { user_id := u
                object_id := id
                configuration := { retention_count := 6, force_flush := false } }
            snapshot_persistence := { object_id := "grid:" ++ id, pool := pool } } := by
  simp [make_database_rev_manager, h]

/-- Witness for C7 under the all-success world. -/
theorem C7_make_rev_manager_pure_construction_witness :
    make_database_rev_manager okWorld "g" ⟨0⟩ =
      .ok { user_id := "user-1"
            object_id := "g"
            rev_persistence :=
              { user_id := "user-1"
                object_id := "g"
                configuration := { retention_count := 6, force_flush := false } }
            snapshot_persistence := { object_id := "grid:g", pool := ⟨0⟩ } } :=
  C7_make_rev_manager_pure_construction okWorld "g" ⟨0⟩ "user-1" rfl

/-- Claim C8: `close_database` always returns success; on an id with no
live handle it is a no-op; on a live handle it removes one reference,
evicting the entry and running teardown only when the last reference is
released. -/
theorem C8_close_database_total (id : String) :
    (∀ s : ManagerState, (close_database s id).2.2 = .ok ()) ∧
    (∀ s : ManagerState, cacheFind s.grid_editors id = none →
       close_database s id = (s, [], .ok ())) ∧
    (∀ (s : ManagerState) (n : Nat) (e : DatabaseRevisionEditor),
       cacheFind s.grid_editors id = some ⟨n + 2, e⟩ →
       cacheFind (close_database s id).1.grid_editors id = some ⟨n + 1, e⟩ ∧
       (close_database s id).2.1 = []) ∧
    (∀ (s : ManagerState) (e : DatabaseRevisionEditor),
       cacheFind s.grid_editors id = some ⟨1, e⟩ →
       cacheFind (close_database s id).1.grid_editors id = none ∧
       (close_database s id).2.1 =
         [Event.editorTeardown e.database_id e.instance_tag]) := by
  refine ⟨?_, ?_, ?_, ?_⟩
  · intro s
    rcases h : cacheRemove s.grid_editors id with ⟨c, evs⟩
    simp [close_database, h]
  · intro s h
    simp [close_database, cacheRemove, h]
  · intro s n e h
    have hle : ¬ (n + 2 ≤ 1) := by omega
    have hsub : n + 2 - 1 = n + 1 := by omega
    have hrem : cacheRemove s.grid_editors id =
        (s.grid_editors.map (fun q => if q.1 = id then (q.1, ⟨n + 1, e⟩) else q), []) := by
      simp [cacheRemove, h, hle, hsub]
    constructor
    · simp [close_database, hrem, cacheFind_map_update, h]
    · simp [close_database, hrem]
  · intro s e h
    have hrem : cacheRemove s.grid_editors id =
        (s.grid_editors.filter (fun q => q.1 != id),
         [Event.editorTeardown e.database_id e.instance_tag]) := by
      simp [cacheRemove, h]
    constructor
    · simp [close_database, hrem, cacheFind_filter_ne]
    · simp [close_database, hrem]

/-- Witness for C8 at an empty cache, a doubly-referenced handle, and a
singly-referenced handle. -/
theorem C8_close_database_total_witness :
    (close_database emptyState "g").2.2 = .ok () ∧
    close_database emptyState "g" = (emptyState, [], .ok ()) ∧
    (cacheFind (close_database doubleRefState "g").1.grid_editors "g" =
        some ⟨1, ⟨"g", 0⟩⟩ ∧
      (close_database doubleRefState "g").2.1 = []) ∧
    (cacheFind (close_database cachedState "g").1.grid_editors "g" = none ∧
      (close_database cachedState "g").2.1 = [Event.editorTeardown "g" 0]) :=
  ⟨(C8_close_database_total "g").1 emptyState,
   (C8_close_database_total "g").2.1 emptyState rfl,
   (C8_close_database_total "g").2.2.1 doubleRefState 0 ⟨"g", 0⟩ rfl,
   (C8_close_database_total "g").2.2.2 cachedState ⟨"g", 0⟩ rfl⟩

/-- Claim C9: a secondary-index write failure never aborts or alters block
creation: the final state, the result and the committed block revisions of
the bootstrap block loop are identical under any two index capabilities,
and with working block persistence every block initial revision is
committed with no assumption at all on the index. -/
theorem C9_index_failure_nonfatal :
    (∀ (w : World) (f : String → String → Except FlowyError Unit) (s : ManagerState)
        (bs : List BuildGridBlock),
       (bootstrap_blocks { w with index_insert := f } s bs).1 =
         (bootstrap_blocks w s bs).1 ∧
       (bootstrap_blocks { w with index_insert := f } s bs).2.2 =
         (bootstrap_blocks w s bs).2.2 ∧
       block_commits (bootstrap_blocks { w with index_insert := f } s bs).2.1 =
         block_commits (bootstrap_blocks w s bs).2.1) ∧
    (∀ (w : World) (s : ManagerState) (bs : List BuildGridBlock),
       (∀ id, w.block_rev_manager id = .ok ()) →
       (∀ id revs, w.reset_block id revs = .ok ()) →
       block_commits (bootstrap_blocks w s bs).2.1 =
         bs.map
           (fun b => (b.block_id, [Revision.initial_revision b.block_id (Bytes.blockOps b)]))) := by
  constructor
  · intro w f s bs
    exact bootstrap_blocks_index_independent w f bs s
  · intro w s bs hm hr
    rw [bootstrap_blocks_ok w hm hr bs s]
    exact block_commits_blocks_trace w bs

/-- Witness for C9: with every index write failing, both blocks are still
committed. -/
theorem C9_index_failure_nonfatal_witness :
    block_commits (bootstrap_blocks idxFailWorld emptyState ctxTwoBlocks.blocks).2.1 =
      ctxTwoBlocks.blocks.map
        (fun b => (b.block_id, [Revision.initial_revision b.block_id (Bytes.blockOps b)])) :=
  C9_index_failure_nonfatal.2 idxFailWorld emptyState ctxTwoBlocks.blocks
    (fun _ => rfl) (fun _ _ => rfl)

/-- Claim C10: the bootstrap entry point takes no independent document id:
the document initial revision is keyed by the view id, and the synthesized
default view is bound to an owning-document id equal to its own view id. -/
theorem C10_document_id_is_view_id (s : ManagerState) (uid vid : String)
    (layout : DatabaseViewLayout) :
    ∀ (w : World) (ctx : BuildGridContext), CreatesOk w →
      ctx.grid_view_revision_data = "" →
      grid_commits (make_database_view_data w s uid vid layout ctx).2.1 =
        [(vid, [Revision.initial_revision vid (grid_bytes vid ctx)])] ∧
      view_commits (make_database_view_data w s uid vid layout ctx).2.1 =
        [(vid, [Revision.initial_revision vid
           (Bytes.viewOps (DatabaseViewRevision.new vid vid layout.into))])] ∧
      (DatabaseViewRevision.new vid vid layout.into).grid_id = vid := by
  intro w ctx hc hdata
  have hview : resolve_view w vid vid layout ctx.grid_view_revision_data =
      .ok (DatabaseViewRevision.new vid vid layout.into) := by
    rw [hdata]; rfl
  have heq := make_database_view_data_ok w s uid vid layout ctx _ hc hview
  refine ⟨?_, ?_, rfl⟩ <;> rw [heq] <;>
    simp [grid_commits_append, view_commits_append, grid_commits_blocks_trace,
      view_commits_blocks_trace, grid_commits, view_commits]

/-- Witness for C10 under the all-success world on the two-block context. -/
theorem C10_document_id_is_view_id_witness :
    grid_commits (make_database_view_data okWorld emptyState "u" "v"
        DatabaseViewLayout.Grid ctxTwoBlocks).2.1 =
      [("v", [Revision.initial_revision "v" (grid_bytes "v" ctxTwoBlocks)])] ∧
    view_commits (make_database_view_data okWorld emptyState "u" "v"
        DatabaseViewLayout.Grid ctxTwoBlocks).2.1 =
      [("v", [Revision.initial_revision "v"
         (Bytes.viewOps (DatabaseViewRevision.new "v" "v" 0))])] ∧
    (DatabaseViewRevision.new "v" "v" DatabaseViewLayout.Grid.into).grid_id = "v" :=
  C10_document_id_is_view_id emptyState "u" "v" DatabaseViewLayout.Grid okWorld
    ctxTwoBlocks okWorldCreates rfl

end FlowyDatabase
